import Mathlib

/-!
Verification of the document-summarizer QA bot (FastAPI + LlamaIndex + ChromaDB).

We shallowly embed the three source files:
  * `rag.py`    — `generate_summary`, `get_or_create_collection`,
                  `process_document`, `query_document`;
  * `main.py`   — `process_and_update_status` (task registry writes),
                  `ask_question`;
  * `frontend.py` — the per-source relevance bucketing of the rendering loops.

External collaborators (ChromaDB, the LlamaIndex retriever/synthesizer, the
OpenAI client, the directory reader) are modelled as environment records whose
fields return `Except String α`: an `.error e` value models the Python call
raising an exception with message `e`.  Similarity scores are modelled as
rationals `ℚ`; the claims under study concern comparison structure and exact
arithmetic identities, not floating-point rounding.
-/

namespace DocQA

/-- A retrieved chunk, modelling a LlamaIndex `NodeWithScore` as consumed by
`query_document` in `rag.py`.  `score = none` models a node object lacking a
`score` attribute (the code guards with `hasattr(node, 'score')`); `file_path
= none` models metadata without a `"file_path"` key (the code uses
`metadata.get("file_path", "Unknown")`). -/
structure RetrievedNode where
  text : String
  score : Option ℚ
  file_path : Option String
deriving Repr, DecidableEq

/-- One entry of the `sources` list built in `query_document` (rag.py lines
235–244): `{"source": file_path, "text": node.text, "score": node.score if
hasattr(node, 'score') else 0.5}`. -/
structure Source where
  source : String
  text : String
  score : ℚ
deriving Repr, DecidableEq

/-- The JSON body returned by `query_document` / `POST /ask`:
`{"answer": ..., "sources": [...]}`. -/
structure QueryResponse where
  answer : String
  sources : List Source
deriving Repr, DecidableEq

/-- One element of `best_results` in `query_document` (rag.py lines 246–251). -/
structure Candidate where
  answer : String
  sources : List Source
  avg_score : ℚ
  collection : String
deriving Repr, DecidableEq

/-- rag.py line 238 and 240–244: build one `sources` entry from a node. -/
def mkSource (node : RetrievedNode) : Source :=
  { source := node.file_path.getD "Unknown"
    text := node.text
    score := node.score.getD (1/2 : ℚ) }

/-- rag.py line 232: `sum(node.score for node in nodes if hasattr(node,
'score')) / len(nodes)` — the sum ranges over the nodes that HAVE a score,
the denominator over ALL retrieved nodes. -/
def avg_similarity (nodes : List RetrievedNode) : ℚ :=
  (nodes.filterMap (·.score)).sum / nodes.length

/-- rag.py line 165: collections whose name does not start with `"doc_"` are
skipped by the fan-out.  Python's `collection_name.startswith("doc_")` is the
character-prefix test, modelled on the underlying character lists. -/
def startsWithDoc (name : String) : Bool :=
  "doc_".data.isPrefixOf name.data

/-- Environment for `query_document`: the external calls it makes.
`listCollections` models `chroma_client.list_collections()` (returning the
collection names); `retrieve` models the whole per-collection pipeline up to
`retriever.retrieve(question)` (get_collection, vector store, index, retriever
construction — an `.error` models any of those raising); `synthesize` models
`response_synthesizer.synthesize(query_bundle, nodes)` producing
`response.response` (an `.error` models template creation or synthesis
raising). -/
structure QueryEnv where
  listCollections : Except String (List String)
  retrieve : String → String → Except String (List RetrievedNode)
  synthesize : String → String → List RetrievedNode → Except String String

/-- The `for collection_info in collections:` loop of `query_document`
(rag.py lines 161–251), accumulating `best_results` in enumeration order.
An exception anywhere in the loop body propagates (there is no per-collection
handler: the only inner `try` re-raises), discarding candidates gathered so
far — hence the whole loop returns `Except`. -/
def fanOut (env : QueryEnv) (question : String) : List String → Except String (List Candidate)
  | [] => .ok []
  | name :: rest =>
    if startsWithDoc name then
      match env.retrieve name question with
      | .error e => .error e
      | .ok nodes =>
        if nodes.isEmpty then
          fanOut env question rest
        else
          match env.synthesize name question nodes with
          | .error e => .error e
          | .ok ans =>
            match fanOut env question rest with
            | .error e => .error e
            | .ok cs =>
              .ok ({ answer := ans
                     sources := nodes.map mkSource
                     avg_score := avg_similarity nodes
                     collection := name } :: cs)
    else
      fanOut env question rest

/-- Insert a candidate into a descending-sorted list, after all elements with
an equal or larger key: together with `sortDesc` this realizes the unique
stable descending sort that Python's `list.sort(key=..., reverse=True)`
(rag.py line 257) computes. -/
def insertDesc (c : Candidate) : List Candidate → List Candidate
  | [] => [c]
  | d :: ds => if d.avg_score < c.avg_score then c :: d :: ds else d :: insertDesc c ds

/-- Stable descending sort by `avg_score`, modelling
`best_results.sort(key=lambda x: x["avg_score"], reverse=True)`. -/
def sortDesc (cs : List Candidate) : List Candidate :=
  cs.foldl (fun acc c => insertDesc c acc) []

/-- rag.py `query_document` (lines 148–267).  The outer `try` catches any
exception and returns `{"answer": f"Error during document retrieval: {e}",
"sources": []}`; zero collections yield the fixed "no documents" answer; an
empty `best_results` yields the fixed "no relevant information" answer;
otherwise the head of the sorted candidate list is returned.  (The `[]`
branch of the final match is unreachable: `sortDesc` of a non-empty list is
non-empty.) -/
def query_document (env : QueryEnv) (question : String) : QueryResponse :=
  match env.listCollections with
  | .error e => { answer := "Error during document retrieval: " ++ e, sources := [] }
  | .ok collections =>
    if collections.isEmpty then
      { answer := "No documents have been uploaded yet.", sources := [] }
    else
      match fanOut env question collections with
      | .error e => { answer := "Error during document retrieval: " ++ e, sources := [] }
      | .ok best_results =>
        if best_results.isEmpty then
          { answer := "No relevant information found in the uploaded documents.", sources := [] }
        else
          match sortDesc best_results with
          | [] => { answer := "No relevant information found in the uploaded documents.", sources := [] }
          | best :: _ => { answer := best.answer, sources := best.sources }

/-- main.py `ask_question` (lines 87–101): wraps `query_document` in a
`try/except` that would encode an escaped exception as `{"answer": f"Error:
{e}", "sources": []}`; since `query_document` is total (it catches all its own
errors), the wrapper returns its result unchanged. -/
def ask_question (env : QueryEnv) (question : String) : QueryResponse :=
  query_document env question

/-! ### Ingestion pipeline (rag.py `process_document` and friends, main.py registry) -/

/-- The ChromaDB persistent state visible to the pipeline: the list of
existing collection names, in creation order. -/
structure ProcState where
  collections : List String
deriving Repr, DecidableEq

/-- The result dict of `process_document` / the value stored in
`PROCESSING_STATUS` (heterogeneous Python dicts modelled with optional
fields). -/
structure ProcessResult where
  status : String
  summary : Option String := none
  error : Option String := none
  file : Option String := none
  index_id : Option String := none
deriving Repr, DecidableEq

/-- Environment for the ingestion pipeline: the external calls of
`process_document`.  `create_collection` models
`chroma_client.get_or_create_collection` raising (`.error`) or succeeding;
`load_data` models `SimpleDirectoryReader(input_files=[file_path]).load_data()`
returning the texts of the loaded documents; `build_index` models node parsing
plus `VectorStoreIndex(...)` construction; `summarize_llm` models the
`openai_client.chat.completions.create` call, applied to the (already
truncated) document text and returning the raw completion content. -/
structure ProcEnv where
  create_collection : Except String Unit
  load_data : Except String (List String)
  build_index : Except String Unit
  summarize_llm : String → Except String String

/-- rag.py `generate_summary` (lines 70–85): sends `text[:4000]` to the chat
API and returns the stripped content; any exception is caught and replaced by
the fixed fallback sentence. -/
def generate_summary (env : ProcEnv) (text : String) : String :=
  match env.summarize_llm (text.take 4000) with
  | .ok content => content.trim
  | .error _ =>
    "Summary generation failed. The document has been processed successfully but no summary is available."

/-- rag.py `get_or_create_collection` (lines 87–94): computes the name
`f"doc_{task_id}"` and calls ChromaDB's get-or-create (idempotent: an existing
collection of that name is returned, otherwise it is created); an exception is
logged and re-raised. -/
def get_or_create_collection (env : ProcEnv) (st : ProcState) (task_id : String) :
    Except String (ProcState × String) :=
  let collection_name := "doc_" ++ task_id
  match env.create_collection with
  | .error e => .error e
  | .ok _ =>
    .ok (⟨if st.collections.contains collection_name then st.collections
          else st.collections ++ [collection_name]⟩, collection_name)

/-- `os.path.basename` on the stored upload path (rag.py line 141). -/
def basename (p : String) : String :=
  (p.splitOn "/").getLastD p

/-- rag.py `process_document` (lines 96–146).  Returns the updated ChromaDB
state together with the result dict.  Order matters: the collection is
created FIRST (line 100), the extracted documents are checked for emptiness
only afterwards (line 113).  Any exception is caught by the outer `try` and
converted to a `failed` result; the emptiness case returns `failed` with the
fixed message without raising. -/
def process_document (env : ProcEnv) (st : ProcState) (file_path task_id : String) :
    ProcState × ProcessResult :=
  match get_or_create_collection env st task_id with
  | .error e => (st, { status := "failed", error := some e })
  | .ok (st1, _collection_name) =>
    match env.load_data with
    | .error e => (st1, { status := "failed", error := some e })
    | .ok documents =>
      if documents.isEmpty then
        (st1, { status := "failed"
                error := some "No content could be extracted from the document" })
      else
        match env.build_index with
        | .error e => (st1, { status := "failed", error := some e })
        | .ok _ =>
          let doc_content := String.intercalate " " documents
          let summary := generate_summary env doc_content
          (st1, { status := "completed"
                  summary := some summary
                  file := some (basename file_path)
                  index_id := some task_id })

/-- main.py `PROCESSING_STATUS`: a process-wide dict from task id to status
info. -/
def Registry : Type := String → Option ProcessResult

/-- Python dict assignment `PROCESSING_STATUS[task_id] = result` (main.py
lines 53, 63, 73, 76): an unconditional overwrite of the entry. -/
def registry_set (reg : Registry) (task_id : String) (result : ProcessResult) : Registry :=
  fun k => if k = task_id then some result else reg k

/-- main.py `process_and_update_status` (lines 66–77): runs
`process_document` and stores its result dict under the task id; if
`process_document` itself raised (it cannot — it catches everything), the
`except` branch would store a `failed` dict instead. -/
def process_and_update_status (env : ProcEnv) (st : ProcState) (reg : Registry)
    (task_id file_path : String) : ProcState × Registry :=
  let (st1, result) := process_document env st file_path task_id
  (st1, registry_set reg task_id result)

/-! ### Frontend relevance bucketing (frontend.py) -/

/-- The per-source classification of the two rendering loops (frontend.py
lines 271–279 and 331–338): start from "high", reassign to "medium" when
`score < 0.7`, then reassign to "low" when `score < 0.5` — both comparisons
strict.  Returns `(relevance_class, relevance_text)`. -/
def relevanceBucket (score : ℚ) : String × String :=
  let rc := "relevance-high"
  let rt := "High Relevance"
  let (rc, rt) := if score < 7/10 then ("relevance-medium", "Medium Relevance") else (rc, rt)
  let (rc, rt) := if score < 1/2 then ("relevance-low", "Low Relevance") else (rc, rt)
  (rc, rt)

/-! ### Spec-side definition for the aggregate-score refinement claim -/

/-- Modelled from the spec's words (for comparison with `avg_similarity`,
which is translated from the code): "the arithmetic mean of the similarity
scores of that candidate's returned sources" — sum of the displayed source
scores divided by their number. -/
def sourcesMeanSpec (sources : List Source) : ℚ :=
  (sources.map (·.score)).sum / sources.length

/-! ### Concrete scenario environments used by the claim theorems -/

/-- A concrete scored chunk, as retrieved from collection `doc_b`. -/
def nodeB : RetrievedNode := { text := "beta", score := some 1, file_path := some "b.txt" }

/-- Concrete query environment: two collections exist; evaluating `doc_a`
raises `"boom"` during retrieval, while `doc_b` retrieves a scored chunk
and synthesizes an answer without any error. -/
def envAbort : QueryEnv :=
  { listCollections := .ok ["doc_a", "doc_b"]
    retrieve := fun name _q => if name = "doc_a" then .error "boom" else .ok [nodeB]
    synthesize := fun _ _ _ => .ok "answer from b" }

/-- Concrete ingestion environment: collection creation succeeds, the
directory reader extracts zero documents, everything else is unreachable. -/
def envEmptyDoc : ProcEnv :=
  { create_collection := .ok ()
    load_data := .ok []
    build_index := .ok ()
    summarize_llm := fun _ => .error "unused" }

/-- A terminal (`completed`) registry record, as stored after successful
ingestion. -/
def completedResult : ProcessResult :=
  { status := "completed", summary := some "a summary", file := some "f.txt"
    index_id := some "t1" }

/-- A `processing` registry record, as stored by the upload handler. -/
def processingResult : ProcessResult :=
  { status := "processing", file := some "f.txt" }

/-- A retrieved chunk carrying a similarity score of 1. -/
def nodeScored : RetrievedNode := { text := "alpha", score := some 1, file_path := some "a.txt" }

/-- A retrieved chunk lacking a `score` attribute. -/
def nodeUnscored : RetrievedNode := { text := "gamma", score := none, file_path := some "a.txt" }

/-- Concrete query environment whose single collection retrieves one scored
and one unscored chunk. -/
def envMixed : QueryEnv :=
  { listCollections := .ok ["doc_c"]
    retrieve := fun _ _ => .ok [nodeScored, nodeUnscored]
    synthesize := fun _ _ _ => .ok "mixed answer" }

/-- A concrete scored chunk shared by the two tied collections of `envTie`. -/
def nodeA : RetrievedNode := { text := "alpha", score := some 1, file_path := some "a.txt" }

/-- Concrete query environment with two collections that retrieve identically
scored chunks, so their candidates tie on `avg_score`. -/
def envTie : QueryEnv :=
  { listCollections := .ok ["doc_a", "doc_b"]
    retrieve := fun _ _ => .ok [nodeA]
    synthesize := fun name _ _ => if name = "doc_a" then .ok "answer a" else .ok "answer b" }

/-- The candidate `envTie`'s fan-out builds for `doc_a`. -/
def candTieA : Candidate :=
  { answer := "answer a", sources := [nodeA].map mkSource
    avg_score := avg_similarity [nodeA], collection := "doc_a" }

/-- The candidate `envTie`'s fan-out builds for `doc_b`. -/
def candTieB : Candidate :=
  { answer := "answer b", sources := [nodeA].map mkSource
    avg_score := avg_similarity [nodeA], collection := "doc_b" }

/-- Concrete query environment with zero collections. -/
def envNoDocs : QueryEnv :=
  { listCollections := .ok []
    retrieve := fun _ _ => .ok []
    synthesize := fun _ _ _ => .ok "unused" }

/-- Concrete query environment whose collections all retrieve zero chunks. -/
def envNoHits : QueryEnv :=
  { listCollections := .ok ["doc_a", "other"]
    retrieve := fun _ _ => .ok []
    synthesize := fun _ _ _ => .ok "unused" }

/-- Concrete query environment in which the collection enumeration itself
raises. -/
def envEnumFail : QueryEnv :=
  { listCollections := .error "chroma down"
    retrieve := fun _ _ => .ok []
    synthesize := fun _ _ _ => .ok "unused" }

/-- Concrete ingestion environment: extraction and indexing succeed, the
summarization call raises. -/
def envSumFail : ProcEnv :=
  { create_collection := .ok ()
    load_data := .ok ["hello world"]
    build_index := .ok ()
    summarize_llm := fun _ => .error "rate limited" }

/-! ### Properties of the stable descending sort -/

/-- Keep the incumbent unless the challenger is strictly better: the running
maximum with first-wins tie-breaking. -/
def betterCand (c d : Candidate) : Candidate :=
  if c.avg_score < d.avg_score then d else c

/-- The first-enumerated candidate of maximal `avg_score` in `c :: l`. -/
def firstBest (c : Candidate) (l : List Candidate) : Candidate :=
  l.foldl betterCand c

/-- Default candidate used only to phrase positional statements with
`List.getD`. -/
def dfltCand : Candidate :=
  { answer := "", sources := [], avg_score := 0, collection := "" }

lemma insertDesc_cons (c h : Candidate) (t : List Candidate) :
    ∃ t', insertDesc c (h :: t) = betterCand h c :: t' := by
  by_cases hlt : h.avg_score < c.avg_score
  · exact ⟨h :: t, by simp [insertDesc, betterCand, hlt]⟩
  · exact ⟨insertDesc c t, by simp [insertDesc, betterCand, hlt]⟩

lemma foldl_insertDesc_head :
    ∀ (l : List Candidate) (h : Candidate) (acc : List Candidate),
      (l.foldl (fun a c => insertDesc c a) (h :: acc)).head? = some (firstBest h l)
  | [], h, acc => by simp [firstBest]
  | c :: l', h, acc => by
    obtain ⟨t', ht'⟩ := insertDesc_cons c h acc
    have step : (c :: l').foldl (fun a c => insertDesc c a) (h :: acc)
        = l'.foldl (fun a c => insertDesc c a) (betterCand h c :: t') := by
      simp [List.foldl_cons, ht']
    rw [step, foldl_insertDesc_head l' (betterCand h c) t']
    rfl

lemma sortDesc_cons_head (c : Candidate) (l : List Candidate) :
    (sortDesc (c :: l)).head? = some (firstBest c l) := by
  have : sortDesc (c :: l) = l.foldl (fun a c => insertDesc c a) (c :: []) := by
    simp [sortDesc, List.foldl_cons, insertDesc]
  rw [this, foldl_insertDesc_head]

/-- The head of the stable descending sort is the first-enumerated candidate
attaining the maximal `avg_score`: it sits at some position `i`, every
candidate's score is at most its score, and every candidate strictly before
position `i` has a strictly smaller score. -/
lemma firstBest_spec :
    ∀ (l : List Candidate) (c : Candidate),
      ∃ i, i < (c :: l).length ∧ firstBest c l = (c :: l).getD i dfltCand ∧
        (∀ j, j < (c :: l).length →
          ((c :: l).getD j dfltCand).avg_score ≤ (firstBest c l).avg_score) ∧
        (∀ j, j < i → ((c :: l).getD j dfltCand).avg_score < (firstBest c l).avg_score) := by
  intro l
  induction l with
  | nil =>
    intro c
    refine ⟨0, by simp, by simp [firstBest], ?_, ?_⟩
    · intro j hj
      simp only [List.length_cons, List.length_nil] at hj
      obtain rfl : j = 0 := by omega
      simp [firstBest]
    · intro j hj
      exact absurd hj (Nat.not_lt_zero j)
  | cons d l' ih =>
    intro c
    have hfb : firstBest c (d :: l') = firstBest (betterCand c d) l' := rfl
    obtain ⟨i', hi', heq, hle, hlt⟩ := ih (betterCand c d)
    by_cases hcd : c.avg_score < d.avg_score
    · have hb : betterCand c d = d := by simp [betterCand, hcd]
      rw [hb] at heq hle hlt
      refine ⟨i' + 1, ?_, ?_, ?_, ?_⟩
      · simpa using hi'
      · rw [hfb, hb, heq]; rfl
      · intro j hj
        match j with
        | 0 =>
          have hd : ((d :: l').getD 0 dfltCand).avg_score
              ≤ (firstBest d l').avg_score := hle 0 (by simp)
          simp only [List.getD_cons_zero] at hd
          simp only [List.getD_cons_zero, hfb, hb]
          exact le_of_lt (lt_of_lt_of_le hcd hd)
        | j + 1 =>
          have hj' : j < (d :: l').length := by simpa using hj
          have := hle j hj'
          simpa [hfb, hb] using this
      · intro j hj
        match j with
        | 0 =>
          have hd : ((d :: l').getD 0 dfltCand).avg_score
              ≤ (firstBest d l').avg_score := hle 0 (by simp)
          simp only [List.getD_cons_zero] at hd
          simp only [List.getD_cons_zero, hfb, hb]
          exact lt_of_lt_of_le hcd hd
        | j + 1 =>
          have hj' : j < i' := by omega
          have := hlt j hj'
          simpa [hfb, hb] using this
    · have hb : betterCand c d = c := by simp [betterCand, hcd]
      have hdc : d.avg_score ≤ c.avg_score := le_of_not_lt hcd
      rw [hb] at heq hle hlt
      have hcfb : c.avg_score ≤ (firstBest c l').avg_score := by
        have := hle 0 (by simp)
        simpa using this
      match i', hi', heq, hlt with
      | 0, hi', heq, hlt =>
        refine ⟨0, by simp, ?_, ?_, ?_⟩
        · rw [hfb, hb]
          simpa using heq
        · intro j hj
          match j with
          | 0 => simpa [hfb, hb] using hcfb
          | 1 =>
            simp only [List.getD_cons_succ, List.getD_cons_zero, hfb, hb]
            exact le_trans hdc hcfb
          | j + 2 =>
            have hj' : j + 1 < (c :: l').length := by simpa using hj
            have := hle (j + 1) hj'
            simpa [hfb, hb] using this
        · intro j hj
          exact absurd hj (Nat.not_lt_zero j)
      | i'' + 1, hi', heq, hlt =>
        have hcstrict : c.avg_score < (firstBest c l').avg_score := by
          have := hlt 0 (by omega)
          simpa using this
        refine ⟨i'' + 2, ?_, ?_, ?_, ?_⟩
        · simpa using hi'
        · rw [hfb, hb]
          simpa using heq
        · intro j hj
          match j with
          | 0 => simpa [hfb, hb] using hcfb
          | 1 =>
            simp only [List.getD_cons_succ, List.getD_cons_zero, hfb, hb]
            exact le_trans hdc hcfb
          | j + 2 =>
            have hj' : j + 1 < (c :: l').length := by simpa using hj
            have := hle (j + 1) hj'
            simpa [hfb, hb] using this
        · intro j hj
          match j with
          | 0 => simpa [hfb, hb] using hcstrict
          | 1 =>
            simp only [List.getD_cons_succ, List.getD_cons_zero, hfb, hb]
            exact lt_of_le_of_lt hdc hcstrict
          | j + 2 =>
            have hj' : j + 1 < i'' + 1 := by omega
            have := hlt (j + 1) hj'
            simpa [hfb, hb] using this

/-! ### Properties of the fan-out loop -/

/-- Every candidate accumulated by the fan-out loop originates from exactly
one collection: its sources are the `mkSource` images of the (non-empty) node
list retrieved from that one collection, and its aggregate score is the
`avg_similarity` of those nodes. -/
lemma fanOut_mem (env : QueryEnv) (q : String) :
    ∀ (names : List String) (cands : List Candidate),
      fanOut env q names = .ok cands → ∀ cand ∈ cands,
      ∃ name nodes, name ∈ names ∧ startsWithDoc name = true ∧
        env.retrieve name q = .ok nodes ∧ nodes ≠ [] ∧
        cand.sources = nodes.map mkSource ∧ cand.collection = name ∧
        cand.answer ∈ (env.synthesize name q nodes).toOption ∧
        cand.avg_score = avg_similarity nodes := by
  intro names
  induction names with
  | nil =>
    intro cands h cand hc
    simp [fanOut] at h
    subst h
    simp at hc
  | cons name rest ih =>
    intro cands h cand hc
    by_cases hdoc : startsWithDoc name
    · simp only [fanOut, hdoc, if_pos] at h
      match hret : env.retrieve name q with
      | .error e => rw [hret] at h; simp at h
      | .ok nodes =>
        rw [hret] at h
        dsimp only at h
        by_cases hemp : nodes.isEmpty
        · rw [if_pos hemp] at h
          obtain ⟨n, ns, hn, hd, hr, hne, hs, hcol, hans, hsc⟩ := ih cands h cand hc
          exact ⟨n, ns, List.mem_cons_of_mem _ hn, hd, hr, hne, hs, hcol, hans, hsc⟩
        · rw [if_neg hemp] at h
          match hsyn : env.synthesize name q nodes with
          | .error e => rw [hsyn] at h; simp at h
          | .ok ans =>
            rw [hsyn] at h
            dsimp only at h
            match hrest : fanOut env q rest with
            | .error e => rw [hrest] at h; simp at h
            | .ok cs =>
              rw [hrest] at h
              dsimp only at h
              injection h with h
              subst h
              rcases List.mem_cons.mp hc with hcand | hcand
              · subst hcand
                refine ⟨name, nodes, List.mem_cons_self _ _, hdoc, hret, ?_, rfl, rfl, ?_, rfl⟩
                · intro hnil; rw [hnil] at hemp; exact hemp rfl
                · simp [hsyn, Except.toOption]
              · obtain ⟨n, ns, hn, hd, hr, hne, hs, hcol, hans, hsc⟩ := ih cs hrest cand hcand
                exact ⟨n, ns, List.mem_cons_of_mem _ hn, hd, hr, hne, hs, hcol, hans, hsc⟩
    · simp only [fanOut, hdoc, if_neg, Bool.false_eq_true, not_false_eq_true] at h
      obtain ⟨n, ns, hn, hd, hr, hne, hs, hcol, hans, hsc⟩ := ih cands h cand hc
      exact ⟨n, ns, List.mem_cons_of_mem _ hn, hd, hr, hne, hs, hcol, hans, hsc⟩

/-- If every collection retrieves zero chunks, the fan-out accumulates no
candidate (and raises nothing). -/
lemma fanOut_all_empty (env : QueryEnv) (q : String) :
    ∀ names : List String, (∀ n ∈ names, env.retrieve n q = .ok []) →
      fanOut env q names = .ok [] := by
  intro names
  induction names with
  | nil => intro _; rfl
  | cons name rest ih =>
    intro h
    have hrest := ih fun n hn => h n (List.mem_cons_of_mem _ hn)
    by_cases hdoc : startsWithDoc name
    · simp [fanOut, hdoc, h name (List.mem_cons_self _ _), hrest]
    · simp [fanOut, hdoc, hrest]

/-- When the fan-out succeeds with a non-empty candidate list, the returned
response is the answer/sources pair of the first-enumerated best candidate. -/
lemma query_document_best (env : QueryEnv) (q : String) (cols : List String)
    (c : Candidate) (l : List Candidate)
    (hcols : env.listCollections = .ok cols)
    (hfan : fanOut env q cols = .ok (c :: l)) :
    query_document env q =
      { answer := (firstBest c l).answer, sources := (firstBest c l).sources } := by
  have hcolsne : ¬ (cols.isEmpty = true) := by
    cases cols with
    | nil => simp [fanOut] at hfan
    | cons a as => simp
  obtain ⟨t, ht⟩ : ∃ t, sortDesc (c :: l) = firstBest c l :: t := by
    have h := sortDesc_cons_head c l
    match hs : sortDesc (c :: l) with
    | [] => rw [hs] at h; simp at h
    | b :: tl =>
      rw [hs] at h
      simp only [List.head?_cons, Option.some.injEq] at h
      exact ⟨tl, by rw [h]⟩
  unfold query_document
  rw [hcols]
  dsimp only
  rw [if_neg hcolsne, hfan]
  dsimp only
  rw [if_neg (by simp), ht]

/-! ## Claim C1 — per-store errors during the fan-out -/

/-- Claim C1 is false on the code: in `envAbort` the second collection
`doc_b` retrieves a chunk and synthesizes an answer, yet because evaluating
`doc_a` raised, the whole query returns the catch-all error answer with no
sources — evaluation of the remaining collections did not proceed and
`doc_b`'s candidate is lost. -/
theorem C1_counterexample :
    envAbort.retrieve "doc_b" "q" = .ok [nodeB] ∧
    envAbort.synthesize "doc_b" "q" [nodeB] = .ok "answer from b" ∧
    query_document envAbort "q" =
      { answer := "Error during document retrieval: " ++ "boom", sources := [] } := by
  refine ⟨?_, rfl, ?_⟩
  · simp [envAbort]
  · have h1 : startsWithDoc "doc_a" = true := by decide
    have h2 : envAbort.retrieve "doc_a" "q" = .error "boom" := by simp [envAbort]
    have hfan : fanOut envAbort "q" ["doc_a", "doc_b"] = .error "boom" := by
      simp [fanOut, h1, h2]
    unfold query_document
    rw [show envAbort.listCollections = .ok ["doc_a", "doc_b"] from rfl]
    dsimp only
    rw [if_neg (by simp), hfan]

/-- Claim C1 (amended): an unexpected error while evaluating an individual
collection is NOT caught per store.  It propagates out of the fan-out loop
(first conjunct), so the remaining collections are never evaluated, every
candidate gathered so far is discarded, and the whole query degrades to the
catch-all error answer with empty sources (second conjunct). -/
theorem C1_amended_theorem :
    (∀ (env : QueryEnv) (q name : String) (rest : List String) (e : String),
        startsWithDoc name = true → env.retrieve name q = .error e →
        fanOut env q (name :: rest) = .error e) ∧
    (∀ (env : QueryEnv) (q : String) (cols : List String) (e : String),
        env.listCollections = .ok cols → fanOut env q cols = .error e →
        query_document env q =
          { answer := "Error during document retrieval: " ++ e, sources := [] }) := by
  constructor
  · intro env q name rest e hdoc herr
    simp [fanOut, hdoc, herr]
  · intro env q cols e hcols hfan
    have hne : ¬ (cols.isEmpty = true) := by
      cases cols with
      | nil => simp [fanOut] at hfan
      | cons a as => simp
    unfold query_document
    rw [hcols]
    dsimp only
    rw [if_neg hne, hfan]

/-- Witness for the amended claim C1, at the concrete environment
`envAbort`. -/
theorem C1_amended_witness :
    fanOut envAbort "q" ["doc_a", "doc_b"] = .error "boom" ∧
    query_document envAbort "q" =
      { answer := "Error during document retrieval: " ++ "boom", sources := [] } :=
  ⟨C1_amended_theorem.1 envAbort "q" "doc_a" ["doc_b"] "boom" (by decide) (by simp [envAbort]),
   C1_amended_theorem.2 envAbort "q" ["doc_a", "doc_b"] "boom" rfl
     (C1_amended_theorem.1 envAbort "q" "doc_a" ["doc_b"] "boom" (by decide)
       (by simp [envAbort]))⟩

/-! ## Claim C2 — empty documents and collection creation -/

/-- Claim C2 is false on the code: for a file with no extractable text the
pipeline does signal the empty-document failure, but the ChromaDB collection
`doc_t1` has ALREADY been created (creation happens before the emptiness
check), so a per-document collection does exist afterward. -/
theorem C2_counterexample :
    (process_document envEmptyDoc ⟨[]⟩ "uploads/t1_empty.txt" "t1").2.status = "failed" ∧
    (process_document envEmptyDoc ⟨[]⟩ "uploads/t1_empty.txt" "t1").2.error =
      some "No content could be extracted from the document" ∧
    (process_document envEmptyDoc ⟨[]⟩ "uploads/t1_empty.txt" "t1").1.collections =
      ["doc_" ++ "t1"] :=
  ⟨rfl, rfl, rfl⟩

/-- Claim C2 (amended): when no text can be extracted the pipeline returns
the `failed` result with the fixed empty-document message, but the
CollectionStore has already been created before the emptiness check, so the
per-document collection `doc_<task_id>` does exist afterward. -/
theorem C2_amended_theorem (env : ProcEnv) (st : ProcState) (fp tid : String)
    (hcreate : env.create_collection = .ok ())
    (hload : env.load_data = .ok []) :
    (process_document env st fp tid).2 =
      { status := "failed"
        error := some "No content could be extracted from the document" } ∧
    ("doc_" ++ tid) ∈ (process_document env st fp tid).1.collections := by
  unfold process_document get_or_create_collection
  rw [hcreate, hload]
  dsimp only
  refine ⟨rfl, ?_⟩
  by_cases hc : st.collections.contains ("doc_" ++ tid)
  · rw [if_pos hc]
    exact List.mem_of_elem_eq_true hc
  · rw [if_neg hc]
    exact List.mem_append_right _ (List.mem_singleton.mpr rfl)

/-- Witness for the amended claim C2, at the concrete environment
`envEmptyDoc` starting from an empty ChromaDB state. -/
theorem C2_amended_witness :
    (process_document envEmptyDoc ⟨[]⟩ "uploads/t1_empty.txt" "t1").2 =
      { status := "failed"
        error := some "No content could be extracted from the document" } ∧
    ("doc_" ++ "t1") ∈ (process_document envEmptyDoc ⟨[]⟩ "uploads/t1_empty.txt" "t1").1.collections :=
  C2_amended_theorem envEmptyDoc ⟨[]⟩ "uploads/t1_empty.txt" "t1" rfl rfl

/-! ## Claim C3 — registry writes after a terminal state -/

/-- Claim C3 is false on the code: after the entry for `t1` has reached the
terminal state `completed`, a subsequent registry write with a `processing`
record replaces it — the write is an unconditional dict assignment, so the
status reverts and the stored content changes. -/
theorem C3_counterexample :
    completedResult.status = "completed" ∧
    processingResult.status = "processing" ∧
    (registry_set (registry_set (fun _ => none) "t1" completedResult) "t1" processingResult) "t1"
      = some processingResult ∧
    processingResult ≠ completedResult := by
  refine ⟨rfl, rfl, rfl, ?_⟩
  intro h
  exact absurd (congrArg ProcessResult.status h) (by decide)

/-- Claim C3 (amended): the registry write (`PROCESSING_STATUS[task_id] =
result`) has no terminal-state guard: even when the currently stored record
is terminal (`completed` or `failed`), a subsequent write unconditionally
replaces it with the new record. -/
theorem C3_amended_theorem (reg : Registry) (id : String) (r0 r1 : ProcessResult)
    (hcur : reg id = some r0)
    (hterm : r0.status = "completed" ∨ r0.status = "failed") :
    registry_set reg id r1 id = some r1 := by
  simp [registry_set]

/-- Witness for the amended claim C3: overwriting a `completed` entry with a
`processing` record. -/
theorem C3_amended_witness :
    registry_set (registry_set (fun _ => none) "t1" completedResult) "t1" processingResult "t1"
      = some processingResult :=
  C3_amended_theorem (registry_set (fun _ => none) "t1" completedResult) "t1"
    completedResult processingResult rfl (Or.inl rfl)

/-! ## Claim C4 — relevance bucket thresholds -/

/-- Claim C4 is false on the code at its own boundary cases: with the two
strict `<` comparisons, a score of exactly 0.7 stays in the "high" bucket
(the claim says medium) and a score of exactly 0.5 stays in the "medium"
bucket (the claim says low). -/
theorem C4_counterexample :
    relevanceBucket (7/10) = ("relevance-high", "High Relevance") ∧
    relevanceBucket (1/2) = ("relevance-medium", "Medium Relevance") ∧
    relevanceBucket (7/10) ≠ ("relevance-medium", "Medium Relevance") ∧
    relevanceBucket (1/2) ≠ ("relevance-low", "Low Relevance") := by
  have h7 : relevanceBucket (7/10) = ("relevance-high", "High Relevance") := by
    norm_num [relevanceBucket]
  have h5 : relevanceBucket (1/2) = ("relevance-medium", "Medium Relevance") := by
    norm_num [relevanceBucket]
  refine ⟨h7, h5, ?_, ?_⟩
  · rw [h7]; intro h; exact absurd (congrArg Prod.fst h) (by decide)
  · rw [h5]; intro h; exact absurd (congrArg Prod.fst h) (by decide)

/-- Claim C4 (amended): the displayed bucket is high / medium / low with
strict `<` comparisons against 0.7 and 0.5; 0.95 is high, 0.6 medium, 0.3
low, and the boundary values 0.7 and 0.5 themselves classify as HIGH and
MEDIUM respectively (a score enters the lower bucket only strictly below the
threshold). -/
theorem C4_amended_theorem :
    relevanceBucket (95/100) = ("relevance-high", "High Relevance") ∧
    relevanceBucket (6/10) = ("relevance-medium", "Medium Relevance") ∧
    relevanceBucket (3/10) = ("relevance-low", "Low Relevance") ∧
    relevanceBucket (7/10) = ("relevance-high", "High Relevance") ∧
    relevanceBucket (1/2) = ("relevance-medium", "Medium Relevance") ∧
    (∀ s : ℚ, s < 1/2 → relevanceBucket s = ("relevance-low", "Low Relevance")) ∧
    (∀ s : ℚ, 1/2 ≤ s → s < 7/10 →
      relevanceBucket s = ("relevance-medium", "Medium Relevance")) ∧
    (∀ s : ℚ, 7/10 ≤ s → relevanceBucket s = ("relevance-high", "High Relevance")) := by
  refine ⟨by norm_num [relevanceBucket], by norm_num [relevanceBucket],
    by norm_num [relevanceBucket], by norm_num [relevanceBucket],
    by norm_num [relevanceBucket], ?_, ?_, ?_⟩
  · intro s h1
    have h2 : s < 7/10 := h1.trans (by norm_num)
    have h1n : s < (2⁻¹ : ℚ) := by linarith
    simp [relevanceBucket, h1, h2, h1n]
  · intro s h1 h2
    have h1' : ¬ (s < 1/2) := not_lt.mpr h1
    have h1n : (2⁻¹ : ℚ) ≤ s := by linarith
    simp [relevanceBucket, h1', h2, h1n]
  · intro s h1
    have h2 : ¬ (s < 7/10) := not_lt.mpr h1
    have h3 : ¬ (s < 1/2) := not_lt.mpr ((by norm_num : (1:ℚ)/2 ≤ 7/10).trans h1)
    have h1n : (2⁻¹ : ℚ) ≤ s := by linarith
    simp [relevanceBucket, h2, h3, h1n]

/-- Witness for the amended claim C4, instantiating its quantified bucket
characterizations at 0.3, 0.6 and 0.95. -/
theorem C4_amended_witness :
    relevanceBucket (3/10) = ("relevance-low", "Low Relevance") ∧
    relevanceBucket (6/10) = ("relevance-medium", "Medium Relevance") ∧
    relevanceBucket (95/100) = ("relevance-high", "High Relevance") :=
  ⟨C4_amended_theorem.2.2.2.2.2.1 (3/10) (by norm_num),
   C4_amended_theorem.2.2.2.2.2.2.1 (6/10) (by norm_num) (by norm_num),
   C4_amended_theorem.2.2.2.2.2.2.2 (95/100) (by norm_num)⟩

/-! ## Claim C5 — aggregate score versus the mean of the displayed scores -/

/-- Claim C5 is false on the code when a retrieved node lacks a score: the
fan-out builds a candidate whose `avg_score` is 1/2 (the missing score
contributes 0 to the sum but 1 to the denominator), while the arithmetic
mean of that candidate's displayed source scores is 3/4 (the missing score
is displayed as 0.5). -/
theorem C5_counterexample :
    fanOut envMixed "q" ["doc_c"] = .ok
      [{ answer := "mixed answer"
         sources := [nodeScored, nodeUnscored].map mkSource
         avg_score := 1/2
         collection := "doc_c" }] ∧
    sourcesMeanSpec ([nodeScored, nodeUnscored].map mkSource) = 3/4 ∧
    ((1 : ℚ)/2) ≠ 3/4 := by
  refine ⟨?_, ?_, by norm_num⟩
  · have havg : avg_similarity [nodeScored, nodeUnscored] = 1/2 := by
      norm_num [avg_similarity, nodeScored, nodeUnscored, List.filterMap]
    have hdoc : startsWithDoc "doc_c" = true := by decide
    simp [fanOut, envMixed, hdoc, havg]
  · norm_num [sourcesMeanSpec, mkSource, nodeScored, nodeUnscored]

/-- Helper for claim C5: when every node carries a score, the filtered score
list coincides with the displayed (defaulted) score list. -/
lemma filterMap_score_of_all_isSome :
    ∀ nodes : List RetrievedNode, (∀ n ∈ nodes, n.score.isSome = true) →
      nodes.filterMap (·.score) = nodes.map (fun n => n.score.getD (1/2)) := by
  intro nodes
  induction nodes with
  | nil => intro _; rfl
  | cons n ns ih =>
    intro h
    have hn := h n (List.mem_cons_self _ _)
    match hs : n.score with
    | some q =>
      simp only [List.filterMap_cons, List.map_cons, hs, Option.getD_some]
      rw [ih fun m hm => h m (List.mem_cons_of_mem _ hm)]
    | none => rw [hs] at hn; simp at hn

/-- Claim C5 (amended): for a non-empty retrieved chunk list the candidate's
`avg_score` is the sum of the scores of the chunks that HAVE a score divided
by the TOTAL number of retrieved chunks; it equals the arithmetic mean of
the candidate's displayed source scores exactly when every retrieved chunk
has a score (a chunk without one is displayed as 0.5 but contributes 0 to
the aggregate). -/
theorem C5_amended_theorem (nodes : List RetrievedNode)
    (hne : nodes ≠ [])
    (hall : ∀ n ∈ nodes, n.score.isSome = true) :
    avg_similarity nodes = sourcesMeanSpec (nodes.map mkSource) := by
  unfold avg_similarity sourcesMeanSpec
  rw [List.length_map, List.map_map]
  have hcomp : ((fun s : Source => s.score) ∘ mkSource)
      = fun n : RetrievedNode => n.score.getD (1/2) := rfl
  rw [hcomp, ← filterMap_score_of_all_isSome nodes hall]

/-- Witness for the amended claim C5, at a fully scored chunk list. -/
theorem C5_amended_witness :
    avg_similarity [nodeScored] = sourcesMeanSpec ([nodeScored].map mkSource) :=
  C5_amended_theorem [nodeScored] (by decide) (by decide)

/-! ## Claim C6 — best-candidate selection and tie-breaking -/

/-- Claim C6: when the fan-out succeeds with a non-empty candidate list, the
response is the answer/sources of the candidate at some position `i` whose
`avg_score` is maximal, and every candidate strictly before position `i`
(earlier-enumerated) has a strictly smaller score — so ties go to the
first-enumerated collection. -/
theorem C6_theorem (env : QueryEnv) (q : String) (cols : List String)
    (cands : List Candidate)
    (hcols : env.listCollections = .ok cols)
    (hfan : fanOut env q cols = .ok cands)
    (hne : cands ≠ []) :
    ∃ i, i < cands.length ∧
      query_document env q =
        { answer := (cands.getD i dfltCand).answer
          sources := (cands.getD i dfltCand).sources } ∧
      (∀ j, j < cands.length →
        (cands.getD j dfltCand).avg_score ≤ (cands.getD i dfltCand).avg_score) ∧
      (∀ j, j < i →
        (cands.getD j dfltCand).avg_score < (cands.getD i dfltCand).avg_score) := by
  match cands, hne, hfan with
  | c :: l, _, hfan =>
    obtain ⟨i, hi, heq, hle, hlt⟩ := firstBest_spec l c
    have hq := query_document_best env q cols c l hcols hfan
    refine ⟨i, hi, ?_, ?_, ?_⟩
    · rw [hq, heq]
    · intro j hj
      rw [← heq]
      exact hle j hj
    · intro j hj
      rw [← heq]
      exact hlt j hj

/-- Witness for claim C6, at the tied environment `envTie` whose fan-out
produces the two tied candidates `candTieA` and `candTieB`. -/
theorem C6_witness :
    ∃ i, i < ([candTieA, candTieB] : List Candidate).length ∧
      query_document envTie "q" =
        { answer := ([candTieA, candTieB].getD i dfltCand).answer
          sources := ([candTieA, candTieB].getD i dfltCand).sources } ∧
      (∀ j, j < ([candTieA, candTieB] : List Candidate).length →
        ([candTieA, candTieB].getD j dfltCand).avg_score
          ≤ ([candTieA, candTieB].getD i dfltCand).avg_score) ∧
      (∀ j, j < i →
        ([candTieA, candTieB].getD j dfltCand).avg_score
          < ([candTieA, candTieB].getD i dfltCand).avg_score) :=
  C6_theorem envTie "q" ["doc_a", "doc_b"] [candTieA, candTieB] rfl rfl (by decide)

/-! ## Claim C7 — no cross-collection source fusion -/

/-- Claim C7: whenever a query response carries any sources at all, the whole
sources list is the image of the node list retrieved from ONE collection —
sources never span more than one CollectionStore in a single response. -/
theorem C7_theorem (env : QueryEnv) (q : String)
    (hne : (query_document env q).sources ≠ []) :
    ∃ cols name nodes,
      env.listCollections = .ok cols ∧ name ∈ cols ∧
      startsWithDoc name = true ∧
      env.retrieve name q = .ok nodes ∧
      (query_document env q).sources = nodes.map mkSource := by
  match hcols : env.listCollections with
  | .error e =>
    refine absurd ?_ hne
    unfold query_document
    rw [hcols]
  | .ok cols =>
    by_cases hemp : cols.isEmpty = true
    · refine absurd ?_ hne
      unfold query_document
      rw [hcols]
      dsimp only
      rw [if_pos hemp]
    · match hfan : fanOut env q cols with
      | .error e =>
        refine absurd ?_ hne
        unfold query_document
        rw [hcols]
        dsimp only
        rw [if_neg hemp, hfan]
      | .ok cands =>
        match cands, hfan with
        | [], hfan =>
          refine absurd ?_ hne
          unfold query_document
          rw [hcols]
          dsimp only
          rw [if_neg hemp, hfan]
          rfl
        | c :: l, hfan =>
          have hq := query_document_best env q cols c l hcols hfan
          obtain ⟨i, hi, heq, _, _⟩ := firstBest_spec l c
          have hmem : firstBest c l ∈ c :: l := by
            rw [heq, List.getD_eq_getElem _ _ hi]
            exact List.getElem_mem _
          obtain ⟨name, nodes, hn, hdoc, hr, _, hs, _, _, _⟩ :=
            fanOut_mem env q cols (c :: l) hfan (firstBest c l) hmem
          refine ⟨cols, name, nodes, rfl, hn, hdoc, hr, ?_⟩
          rw [hq]
          exact hs

/-- Witness for claim C7, at the single-collection environment `envMixed`. -/
theorem C7_witness :
    ∃ cols name nodes,
      envMixed.listCollections = .ok cols ∧ name ∈ cols ∧
      startsWithDoc name = true ∧
      envMixed.retrieve name "q" = .ok nodes ∧
      (query_document envMixed "q").sources = nodes.map mkSource :=
  C7_theorem envMixed "q" (by decide)

/-! ## Claim C8 — fixed answers for no documents / no hits -/

/-- Claim C8: with zero collections the response is the fixed "no documents"
answer with empty sources; with collections present but every one retrieving
zero chunks, the response is the fixed "no relevant information" answer with
empty sources — neither case is an error. -/
theorem C8_theorem (env : QueryEnv) (q : String) :
    (env.listCollections = .ok [] →
      query_document env q =
        { answer := "No documents have been uploaded yet.", sources := [] }) ∧
    (∀ cols, env.listCollections = .ok cols → cols ≠ [] →
      (∀ c ∈ cols, env.retrieve c q = .ok []) →
      query_document env q =
        { answer := "No relevant information found in the uploaded documents."
          sources := [] }) := by
  constructor
  · intro h
    unfold query_document
    rw [h]
    rfl
  · intro cols hcols hne hall
    have hfan := fanOut_all_empty env q cols hall
    have hempf : ¬ (cols.isEmpty = true) := by
      cases cols with
      | nil => exact absurd rfl hne
      | cons a as => simp
    unfold query_document
    rw [hcols]
    dsimp only
    rw [if_neg hempf, hfan]
    rfl

/-- Witness for claim C8, at the concrete environments `envNoDocs` and
`envNoHits`. -/
theorem C8_witness :
    query_document envNoDocs "q" =
      { answer := "No documents have been uploaded yet.", sources := [] } ∧
    query_document envNoHits "q" =
      { answer := "No relevant information found in the uploaded documents."
        sources := [] } :=
  ⟨(C8_theorem envNoDocs "q").1 rfl,
   (C8_theorem envNoHits "q").2 ["doc_a", "other"] rfl (List.cons_ne_nil _ _)
     (fun c _ => rfl)⟩

/-! ## Claim C9 — the query path never raises to the caller -/

/-- Claim C9: `ask_question` is a total function into `QueryResponse` (no
exception escapes to the caller in the model), and a total failure — the
collection enumeration raising, or the fan-out raising — yields a normal
response whose answer is the human-readable error string and whose sources
list is empty. -/
theorem C9_theorem (env : QueryEnv) (q e : String)
    (h : env.listCollections = .error e ∨
         ∃ cols, env.listCollections = .ok cols ∧ fanOut env q cols = .error e) :
    ask_question env q =
      { answer := "Error during document retrieval: " ++ e, sources := [] } := by
  rcases h with h | ⟨cols, hcols, hfan⟩
  · unfold ask_question query_document
    rw [h]
  · have hempf : ¬ (cols.isEmpty = true) := by
      cases cols with
      | nil => simp [fanOut] at hfan
      | cons a as => simp
    unfold ask_question query_document
    rw [hcols]
    dsimp only
    rw [if_neg hempf, hfan]

/-- Witness for claim C9, at the concrete environment whose enumeration
raises. -/
theorem C9_witness :
    ask_question envEnumFail "q" =
      { answer := "Error during document retrieval: " ++ "chroma down", sources := [] } :=
  C9_theorem envEnumFail "q" "chroma down" (Or.inl rfl)

/-! ## Claim C10 — summarization failure still completes the task -/

/-- Claim C10 (implicit): when extraction and indexing succeed but the
summarization call raises, the task is still recorded as `completed`, with
the fixed fallback sentence as its summary. -/
theorem C10_theorem (env : ProcEnv) (st : ProcState) (reg : Registry)
    (task_id file_path : String) (docs : List String) (e : String)
    (hcreate : env.create_collection = .ok ())
    (hload : env.load_data = .ok docs) (hdocs : docs ≠ [])
    (hidx : env.build_index = .ok ())
    (hsum : env.summarize_llm ((String.intercalate " " docs).take 4000) = .error e) :
    ∃ r, (process_and_update_status env st reg task_id file_path).2 task_id = some r ∧
      r.status = "completed" ∧
      r.summary =
        some "Summary generation failed. The document has been processed successfully but no summary is available." := by
  have hde : ¬ (docs.isEmpty = true) := by
    cases docs with
    | nil => exact absurd rfl hdocs
    | cons a as => simp
  have hpd : (process_document env st file_path task_id).2 =
      { status := "completed"
        summary := some (generate_summary env (String.intercalate " " docs))
        file := some (basename file_path)
        index_id := some task_id } := by
    unfold process_document get_or_create_collection
    rw [hcreate, hload]
    dsimp only
    rw [if_neg hde, hidx]
  have hgs : generate_summary env (String.intercalate " " docs) =
      "Summary generation failed. The document has been processed successfully but no summary is available." := by
    unfold generate_summary
    rw [hsum]
  have hreg : (process_and_update_status env st reg task_id file_path).2
      = registry_set reg task_id (process_document env st file_path task_id).2 := rfl
  refine ⟨(process_document env st file_path task_id).2, ?_, ?_, ?_⟩
  · rw [hreg]
    simp [registry_set]
  · rw [hpd]
  · rw [hpd]
    dsimp only
    rw [hgs]

/-- Witness for claim C10, at the concrete environment whose summarization
call raises. -/
theorem C10_witness :
    ∃ r, (process_and_update_status envSumFail ⟨[]⟩ (fun _ => none) "t1" "uploads/t1_doc.txt").2 "t1"
        = some r ∧
      r.status = "completed" ∧
      r.summary =
        some "Summary generation failed. The document has been processed successfully but no summary is available." :=
  C10_theorem envSumFail ⟨[]⟩ (fun _ => none) "t1" "uploads/t1_doc.txt" ["hello world"]
    "rate limited" rfl rfl (by decide) rfl rfl

end DocQA
